import Mathlib

/-!
Verification of the API client in `src/offdeal-frontend/src/lib/api.ts`.

The file is a thin fetch wrapper: a module-level base URL `BASE`, a shared
response unwrapper `j`, and eight operations that each build one HTTP request
and pass the response through `j`.  We embed the requests each operation
builds, the base-URL resolution, and the unwrapping logic, and prove the
spec's claims about them.
-/

/-- A JSON value, as produced by `res.json()` and consumed by
`JSON.stringify`. -/
inductive JsonVal where
  | null : JsonVal
  | bool (b : Bool) : JsonVal
  | num (n : Int) : JsonVal
  | str (s : String) : JsonVal
  | arr (xs : List JsonVal) : JsonVal
  | obj (fields : List (String × JsonVal)) : JsonVal

/-- One hexadecimal digit, lowercase, as `JSON.stringify` emits in
escapes. -/
def hexDigit (n : Nat) : String :=
  String.singleton (Char.ofNat (if n < 10 then 48 + n else 87 + n))

/-- Escaping of a single character inside a JSON string literal,
following `JSON.stringify`. -/
def escapeChar (c : Char) : String :=
  if c = '"' then "\\\""
  else if c = '\\' then "\\\\"
  else if c = '\n' then "\\n"
  else if c = '\r' then "\\r"
  else if c = '\t' then "\\t"
  else if c.toNat = 8 then "\\b"
  else if c.toNat = 12 then "\\f"
  else if c.toNat < 32 then "\\u00" ++ hexDigit (c.toNat / 16) ++ hexDigit (c.toNat % 16)
  else String.singleton c

/-- Escaping of a whole JSON string body. -/
def escapeString (s : String) : String :=
  String.join (s.data.map escapeChar)

mutual

/-- `JSON.stringify` on a JSON value. -/
def stringify : JsonVal → String
  | .null => "null"
  | .bool b => if b then "true" else "false"
  | .num n => toString n
  | .str s => "\"" ++ escapeString s ++ "\""
  | .arr xs => "[" ++ stringifyList xs ++ "]"
  | .obj fs => "\x7b" ++ stringifyFields fs ++ "\x7d"

/-- Comma-separated serialization of array elements. -/
def stringifyList : List JsonVal → String
  | [] => ""
  | [x] => stringify x
  | x :: y :: xs => stringify x ++ "," ++ stringifyList (y :: xs)

/-- Comma-separated serialization of object members. -/
def stringifyFields : List (String × JsonVal) → String
  | [] => ""
  | [kv] => "\"" ++ escapeString kv.1 ++ "\":" ++ stringify kv.2
  | kv :: kv2 :: fs =>
      "\"" ++ escapeString kv.1 ++ "\":" ++ stringify kv.2 ++ "," ++
        stringifyFields (kv2 :: fs)

end

/-- Removal of every trailing slash from a string: the effect of
`.replace(/\/+$/, "")` in `api.ts` line 1. -/
def stripTrailingSlashes (s : String) : String :=
  ⟨(s.data.reverse.dropWhile (fun c => c == '/')).reverse⟩

/-- `const BASE = process.env.NEXT_PUBLIC_API_BASE?.replace(/\/+$/, "") || ""`:
the environment value with trailing slashes stripped, or `""` when the
value is unset or the stripped result is empty (falsy). -/
def resolveBase (env : Option String) : String :=
  match env with
  | none => ""
  | some s =>
      let t := stripTrailingSlashes s
      if t = "" then "" else t

/-- An HTTP response as observed by `j`: the status code, the result of
`res.text()` (`none` when reading the body fails, in which case the
`.catch` clause substitutes `""`), and the result of `res.json()`
(`none` when the body is not well-formed JSON). -/
structure Response where
  status : Nat
  textBody : Option String
  jsonBody : Option JsonVal

/-- `res.ok` of the Fetch API: status in the inclusive range 200–299. -/
def Response.isOk (r : Response) : Bool :=
  decide (200 ≤ r.status) && decide (r.status < 300)

/-- Outcome of unwrapping a response: the parsed JSON on success, an
`Error` with a message on a failing status, or the JSON parse failure
propagating on a success status with a malformed body. -/
inductive FetchResult (α : Type) where
  | ok (v : α) : FetchResult α
  | requestFailed (msg : String) : FetchResult α
  | jsonParseError : FetchResult α

/-- The shared unwrapper `j` (`api.ts` lines 3–9): on a non-ok status,
throw an `Error` whose message is the body text if non-empty (JS `||`
falls through on the empty string), else `"HTTP <status>"`; on an ok
status, return `res.json()`. -/
def j (res : Response) : FetchResult JsonVal :=
  if res.isOk then
    match res.jsonBody with
    | some v => .ok v
    | none => .jsonParseError
  else
    let msg := res.textBody.getD ""
    .requestFailed (if msg = "" then "HTTP " ++ toString res.status else msg)

/-- The observable content of one `fetch` call: URL, method, headers,
serialized body, and the `cache` option.  `fetch` defaults: method GET,
no headers, no body, no cache option. -/
structure Request where
  url : String
  method : String
  headers : List (String × String)
  body : Option String
  cache : Option String
deriving DecidableEq

/-- The payload of `updateDeck`: `{ title?: string; slides: any[] }`. -/
structure DeckUpdatePayload where
  title : Option String
  slides : List JsonVal

/-- The JSON object a `DeckUpdatePayload` serializes to: `JSON.stringify`
omits absent optional fields. -/
def DeckUpdatePayload.toJson (p : DeckUpdatePayload) : JsonVal :=
  .obj ((match p.title with
         | some t => [("title", JsonVal.str t)]
         | none => []) ++ [("slides", JsonVal.arr p.slides)])

/-- The payload of `updateEmail`: `{ subject?: string; body?: string }`. -/
structure EmailUpdatePayload where
  subject : Option String
  body : Option String

/-- The JSON object an `EmailUpdatePayload` serializes to: absent
optional fields are omitted. -/
def EmailUpdatePayload.toJson (p : EmailUpdatePayload) : JsonVal :=
  .obj ((match p.subject with
         | some s => [("subject", JsonVal.str s)]
         | none => []) ++
        (match p.body with
         | some b => [("body", JsonVal.str b)]
         | none => []))

/-- One invocation of an operation of the `api` object, with its
arguments. -/
inductive ApiCall where
  | listProspects : ApiCall
  | createProspect (payload : JsonVal) : ApiCall
  | generateDeck (prospectId : Nat) : ApiCall
  | renderDeck (deckId : Nat) : ApiCall
  | updateDeck (deckId : Nat) (payload : DeckUpdatePayload) : ApiCall
  | generateEmails (prospectId : Nat) : ApiCall
  | listEmails (prospectId : Nat) : ApiCall
  | updateEmail (emailId : Nat) (payload : EmailUpdatePayload) : ApiCall

/-- The single `fetch` request each operation issues (`api.ts`
lines 13–68), given the resolved base URL. -/
def buildRequest (base : String) : ApiCall → Request
  | .listProspects =>
      { url := base ++ "/prospects", method := "GET", headers := [],
        body := none, cache := some "no-store" }
  | .createProspect payload =>
      { url := base ++ "/prospects", method := "POST",
        headers := [("Content-Type", "application/json")],
        body := some (stringify payload), cache := none }
  | .generateDeck prospectId =>
      { url := base ++ "/decks/" ++ toString prospectId ++ "/generate",
        method := "POST", headers := [], body := none, cache := none }
  | .renderDeck deckId =>
      { url := base ++ "/decks/" ++ toString deckId ++ "/render",
        method := "POST", headers := [], body := none, cache := none }
  | .updateDeck deckId payload =>
      { url := base ++ "/decks/" ++ toString deckId, method := "PATCH",
        headers := [("Content-Type", "application/json")],
        body := some (stringify payload.toJson), cache := none }
  | .generateEmails prospectId =>
      { url := base ++ "/emails/" ++ toString prospectId ++ "/generate",
        method := "POST", headers := [], body := none, cache := none }
  | .listEmails prospectId =>
      { url := base ++ "/emails/" ++ toString prospectId, method := "GET",
        headers := [], body := none, cache := none }
  | .updateEmail emailId payload =>
      { url := base ++ "/emails/item/" ++ toString emailId, method := "PATCH",
        headers := [("Content-Type", "application/json")],
        body := some (stringify payload.toJson), cache := none }

/-- Running one operation: it issues exactly the request `buildRequest`
describes and passes the response through `j`. -/
def runCall (base : String) (c : ApiCall) (res : Response) :
    Request × FetchResult JsonVal :=
  (buildRequest base c, j res)

/-- The status-derived fallback message is never the empty string. -/
theorem httpFallback_ne_empty (s : String) : "HTTP " ++ s ≠ "" := by
  intro h
  have h2 := congrArg String.data h
  simp [String.data_append] at h2

/-- C1: for every operation, given a response with a failing status whose
body text reads as a non-empty string, the operation fails with an error
whose message equals exactly that body text. -/
theorem c1_fail_nonempty_body_message (base : String) (c : ApiCall)
    (res : Response) (t : String) (hfail : res.isOk = false)
    (hbody : res.textBody = some t) (hne : t ≠ "") :
    (runCall base c res).2 = .requestFailed t := by
  simp [runCall, j, hfail, hbody, hne]

/-- Witness for C1 at a concrete failing response with body "boom". -/
theorem c1_fail_nonempty_body_message_witness :
    (runCall "" .listProspects ⟨500, some "boom", none⟩).2 =
      .requestFailed "boom" :=
  c1_fail_nonempty_body_message "" .listProspects ⟨500, some "boom", none⟩
    "boom" rfl rfl (by decide)

/-- C2: for every operation, given a failing status whose body text is
empty or unreadable (an empty string is substituted, no secondary
failure), the operation fails with the message "HTTP <status>". -/
theorem c2_fail_empty_body_fallback (base : String) (c : ApiCall)
    (res : Response) (hfail : res.isOk = false)
    (hbody : res.textBody = some "" ∨ res.textBody = none) :
    (runCall base c res).2 =
      .requestFailed ("HTTP " ++ toString res.status) := by
  rcases hbody with h | h <;> simp [runCall, j, hfail, h]

/-- Witness for C2 at status 500 with an unreadable body: the message is
"HTTP 500". -/
theorem c2_fail_empty_body_fallback_witness :
    (runCall "" .listProspects ⟨500, none, none⟩).2 =
      .requestFailed "HTTP 500" :=
  c2_fail_empty_body_fallback "" .listProspects ⟨500, none, none⟩ rfl
    (Or.inr rfl)

/-- C3: for every operation, given a success status and a well-formed
JSON body, the operation returns the parsed JSON value unmodified,
whatever that value is (no runtime validation). -/
theorem c3_success_returns_parsed_json (base : String) (c : ApiCall)
    (res : Response) (v : JsonVal) (hok : res.isOk = true)
    (hjson : res.jsonBody = some v) :
    (runCall base c res).2 = .ok v := by
  simp [runCall, j, hok, hjson]

/-- Witness for C3 at a concrete 200 response carrying JSON null. -/
theorem c3_success_returns_parsed_json_witness :
    (runCall "" .listProspects ⟨200, none, some .null⟩).2 = .ok .null :=
  c3_success_returns_parsed_json "" .listProspects ⟨200, none, some .null⟩
    .null rfl rfl

/-- C4: the base URL defaults to "" when the environment value is unset,
is the environment value with every trailing slash stripped otherwise,
and in particular "https://api.example.com///" resolves so that
listProspects targets "https://api.example.com/prospects". -/
theorem c4_base_resolution :
    resolveBase none = "" ∧
    (∀ s, resolveBase (some s) = stripTrailingSlashes s) ∧
    resolveBase (some "https://api.example.com///") =
      "https://api.example.com" ∧
    (buildRequest (resolveBase (some "https://api.example.com///"))
      ApiCall.listProspects).url = "https://api.example.com/prospects" := by
  refine ⟨rfl, ?_, rfl, rfl⟩
  intro s
  show (if stripTrailingSlashes s = "" then "" else stripTrailingSlashes s) =
    stripTrailingSlashes s
  by_cases h : stripTrailingSlashes s = ""
  · rw [if_pos h, h]
  · rw [if_neg h]

/-- C5: for every base URL, listProspects issues exactly one request,
a GET to `<base>/prospects` with the cache-bypass option "no-store". -/
theorem c5_listProspects_request (base : String) :
    buildRequest base ApiCall.listProspects =
      { url := base ++ "/prospects", method := "GET", headers := [],
        body := none, cache := some "no-store" } := rfl

/-- C6: updateDeck(42, \x7bslides: []\x7d) issues one PATCH to
`<base>/decks/42` with body `\x7b"slides":[]\x7d` and the
Content-Type: application/json header; and every operation that carries
a body (all of them POST or PATCH) sets that header. -/
theorem c6_updateDeck_request :
    (∀ base, buildRequest base (.updateDeck 42 ⟨none, []⟩) =
      { url := base ++ "/decks/42", method := "PATCH",
        headers := [("Content-Type", "application/json")],
        body := some "\x7b\"slides\":[]\x7d", cache := none }) ∧
    (∀ base c, ((buildRequest base c).method = "POST" ∨
        (buildRequest base c).method = "PATCH") →
      ((buildRequest base c).body).isSome = true →
      ("Content-Type", "application/json") ∈ (buildRequest base c).headers) := by
  constructor
  · intro base
    show Request.mk (base ++ "/decks/" ++ toString (42 : Nat)) "PATCH"
        [("Content-Type", "application/json")]
        (some (stringify (DeckUpdatePayload.toJson ⟨none, []⟩))) none =
      Request.mk (base ++ "/decks/42") "PATCH"
        [("Content-Type", "application/json")]
        (some "\x7b\"slides\":[]\x7d") none
    rw [String.append_assoc]
    rfl
  · intro base c _hm hb
    cases c <;> simp_all [buildRequest]

/-- Witness for C6 at a concrete body-carrying call. -/
theorem c6_updateDeck_request_witness :
    ("Content-Type", "application/json") ∈
      (buildRequest "" (.createProspect (JsonVal.obj []))).headers :=
  c6_updateDeck_request.2 "" (.createProspect (JsonVal.obj []))
    (Or.inl rfl) rfl

/-- C7: updateEmail(7, \x7bsubject: "Hi"\x7d) issues one PATCH to
`<base>/emails/item/7` with body exactly `\x7b"subject":"Hi"\x7d`; the
absent optional body field produces no key in the serialized JSON. -/
theorem c7_updateEmail_request (base : String) :
    buildRequest base (.updateEmail 7 ⟨some "Hi", none⟩) =
      { url := base ++ "/emails/item/7", method := "PATCH",
        headers := [("Content-Type", "application/json")],
        body := some "\x7b\"subject\":\"Hi\"\x7d", cache := none } := by
  show Request.mk (base ++ "/emails/item/" ++ toString (7 : Nat)) "PATCH"
      [("Content-Type", "application/json")]
      (some (stringify (EmailUpdatePayload.toJson ⟨some "Hi", none⟩))) none =
    Request.mk (base ++ "/emails/item/7") "PATCH"
      [("Content-Type", "application/json")]
      (some "\x7b\"subject\":\"Hi\"\x7d") none
  rw [String.append_assoc]
  rfl

/-- C8: for every operation and every failing response, the error
message is never the empty string. -/
theorem c8_error_message_nonempty (base : String) (c : ApiCall)
    (res : Response) (hfail : res.isOk = false) :
    ∃ m, (runCall base c res).2 = .requestFailed m ∧ m ≠ "" := by
  by_cases h : res.textBody.getD "" = ""
  · refine ⟨"HTTP " ++ toString res.status, ?_, httpFallback_ne_empty _⟩
    simp [runCall, j, hfail, h]
  · refine ⟨res.textBody.getD "", ?_, h⟩
    simp [runCall, j, hfail, h]

/-- Witness for C8 at a failing response whose body text is empty. -/
theorem c8_error_message_nonempty_witness :
    ∃ m, (runCall "" .listProspects ⟨404, some "", none⟩).2 =
      .requestFailed m ∧ m ≠ "" :=
  c8_error_message_nonempty "" .listProspects ⟨404, some "", none⟩ rfl

/-- C9: only listProspects sets the cache-bypass option; in particular
listEmails issues a plain GET to `<base>/emails/<prospectId>` with no
cache option, no headers and no body. -/
theorem c9_only_listProspects_bypasses_cache :
    (∀ base c, (buildRequest base c).cache = some "no-store" ↔
      c = ApiCall.listProspects) ∧
    (∀ base prospectId, buildRequest base (.listEmails prospectId) =
      { url := base ++ "/emails/" ++ toString prospectId, method := "GET",
        headers := [], body := none, cache := none }) := by
  refine ⟨?_, fun base prospectId => rfl⟩
  intro base c
  cases c <;> simp [buildRequest]

/-- C10: an environment base URL that is empty or consists entirely of
slashes normalizes to "", identical to the unset case. -/
theorem c10_all_slash_base_is_empty :
    resolveBase (some "") = "" ∧ resolveBase (some "///") = "" ∧
    resolveBase none = "" ∧
    (∀ s, (∀ ch ∈ s.data, ch = '/') → resolveBase (some s) = "") := by
  refine ⟨rfl, rfl, rfl, ?_⟩
  intro s hs
  have hd : s.data.reverse.dropWhile (fun c => c == '/') = [] :=
    List.dropWhile_eq_nil_iff.mpr
      (fun x hx => by simp [hs x (List.mem_reverse.mp hx)])
  have h : stripTrailingSlashes s = "" := by
    unfold stripTrailingSlashes
    rw [hd]
    rfl
  show (if stripTrailingSlashes s = "" then "" else stripTrailingSlashes s) = ""
  rw [if_pos h]

/-- Witness for C10 at a concrete all-slash environment value. -/
theorem c10_all_slash_base_is_empty_witness :
    resolveBase (some "//") = "" :=
  c10_all_slash_base_is_empty.2.2.2 "//" (by decide)
